import Mathlib

set_option autoImplicit false

/-!
Verification of the state-tracking core of the MUI Binary Ninja plugin.

The development shallowly embeds:
- `src/mui/utils.py` — class `MUIState` (the plain-data state registry:
  `get_state`, `get_state_address`, `on_state_change`, `notify_states_changed`)
  and the gRPC client-stub construction `create_client_stub`;
- `src/mui/dockwidgets/state_list_widget.py` — class `StateListWidget`
  (the Qt-tree state registry: `notifyStatesChanged`, `_update_item`,
  `_create_item`, plus the `state_status_mapping` bucket table).

Python dicts are embedded as insertion-ordered association lists with
unique keys; a Qt tree item is embedded as the bucket (top-level list)
it is currently parented under, keyed by state id.  Listener callbacks
are embedded as functions that may fail (a raised exception) and that
emit trace events recording their invocation, so that invocation order
and exception propagation are observable.  A method of a mutable Python
object is embedded as a function from the object state to the object
state at the moment control leaves the method (normally or by a raised
exception) paired with the outcome.
-/

namespace MUI

/-- Status enum of a state descriptor (`manticore.utils.enums.StateStatus`,
as enumerated by the spec's data model and by `state_status_mapping` in
`state_list_widget.py`).  The extra `unknown` constructor represents a
status value outside the known enum (a protocol/version mismatch), which
the error-handling claims quantify over. -/
inductive StateStatus where
  | running
  | waiting_for_worker
  | waiting_for_solver
  | stopped
  | destroyed
  | unknown (tag : String)
deriving DecidableEq, Repr

/-- The members of the status enum proper (the five known statuses). -/
def statusEnum : List StateStatus :=
  [.running, .waiting_for_worker, .waiting_for_solver, .stopped, .destroyed]

/-- `status` lies inside the known enum. -/
def statusKnown (s : StateStatus) : Bool :=
  statusEnum.contains s

/-- The fields of `manticore.core.plugin.StateDescriptor` that the embedded
code reads: `state_id`, `status`, `pc`, `last_pc`.  In the Python source
`pc`/`last_pc` are guarded by `isinstance(_, int)`, so each is embedded as
`Option Int` (`some` exactly when the field holds an int). -/
structure StateDescriptor where
  state_id : Nat
  status : StateStatus
  pc : Option Int
  last_pc : Option Int
deriving DecidableEq, Repr

/-- A Python dict keyed by state id, as an insertion-ordered association
list (well-formed dicts have pairwise-distinct keys). -/
abbrev StateMap := List (Nat × StateDescriptor)

/-- Embedding of Python dict lookup `m[k]` / `m.get(k)`. -/
def dlookup {α : Type} : List (Nat × α) → Nat → Option α
  | [], _ => none
  | (k, v) :: rest, key => if k = key then some v else dlookup rest key

/-- Embedding of Python `key in m`. -/
def dcontains {α : Type} (m : List (Nat × α)) (key : Nat) : Bool :=
  (dlookup m key).isSome

/-- Embedding of Python `m[k] = v` for a key already present: replace the
binding, keeping insertion order. -/
def dset {α : Type} : List (Nat × α) → Nat → α → List (Nat × α)
  | [], _, _ => []
  | (k, v) :: rest, key, newv =>
    if k = key then (k, newv) :: rest else (k, v) :: dset rest key newv

/-- The keys of a dict are pairwise distinct. -/
abbrev keysNodup {α : Type} (m : List (Nat × α)) : Prop :=
  (m.map Prod.fst).Nodup

/-- A trace event recording one listener invocation: the listener's
registration index and the `(old_states, new_states)` pair it received. -/
abbrev ObserverEvent := Nat × StateMap × StateMap

/-- A state-change listener (`utils.py` line 28): a callback receiving
`(old_states, new_states)`.  It may raise (`Except.error`) and, when it
returns normally, emits trace events recording its invocation. -/
abbrev Listener := StateMap → StateMap → Except String (List ObserverEvent)

/-- `MUIState` (`utils.py` lines 24-32): the held state map and the
registered state-change listeners.  (`self.bv` is host-GUI glue and
carries no registry state.) -/
structure MUIState where
  states : StateMap
  state_change_listeners : List Listener

/-- `MUIState.get_state` (`utils.py` lines 34-39): point lookup against
the currently held map, `none` if unknown. -/
def get_state (s : MUIState) (state_id : Nat) : Option StateDescriptor :=
  if dcontains s.states state_id then dlookup s.states state_id else none

/-- `MUIState.get_state_address` (`utils.py` lines 41-54): the state's
`pc` if it is an int, else `last_pc` if it is an int, else `none`. -/
def get_state_address (s : MUIState) (state_id : Nat) : Option Int :=
  match get_state s state_id with
  | none => none
  | some state =>
    match state.pc with
    | some pc => some pc
    | none =>
      match state.last_pc with
      | some lpc => some lpc
      | none => none

/-- `MUIState.on_state_change` (`utils.py` lines 70-77): append a
listener to the registration list. -/
def on_state_change (s : MUIState) (callback : Listener) : MUIState :=
  { s with state_change_listeners := s.state_change_listeners ++ [callback] }

/-- The listener loop of `notify_states_changed` (`utils.py` lines
83-84): invoke each registered callback in registration order with
`(old_states, new_states)`; a raised exception aborts the loop and
propagates; otherwise the emitted trace events are concatenated in
invocation order. -/
def runListeners : List Listener → StateMap → StateMap → Except String (List ObserverEvent)
  | [], _, _ => .ok []
  | cb :: rest, old_states, new_states =>
    match cb old_states new_states with
    | .error e => .error e
    | .ok evs =>
      match runListeners rest old_states new_states with
      | .error e => .error e
      | .ok evs2 => .ok (evs ++ evs2)

/-- `MUIState.notify_states_changed` (`utils.py` lines 79-86): invoke
every listener with `(old_states, new_states)`, then replace the held
map.  The only mutation of the object, `self.states = new_states`, is
the last statement, after the listener loop; hence when a listener
raises, the method exits with the object unchanged (first component
`s`), and on normal return the held map is `new_states`. -/
def notify_states_changed (s : MUIState) (new_states : StateMap) :
    MUIState × Except String (List ObserverEvent) :=
  let old_states := s.states
  match runListeners s.state_change_listeners old_states new_states with
  | .error e => (s, .error e)
  | .ok trace => ({ s with states := new_states }, .ok trace)

/-! ## The Qt-tree state registry (`state_list_widget.py`)

A `QTreeWidgetItem` representing a state is embedded as the top-level
bucket list it is currently parented under; the tree content is the
dict `state_items : id → bucket`.  The label-text refreshing in
`_refresh_list_counts` only rewrites presentation strings on the Qt
widgets and touches no registry data, so it is not part of the model. -/

/-- The four top-level bucket lists created in `StateListWidget.__init__`
(lines 23-26): `active_states`, `waiting_states`, `complete_states`,
`error_states`. -/
inductive Bucket where
  | active_states
  | waiting_states
  | complete_states
  | error_states
deriving DecidableEq, Repr

/-- `StateListWidget.state_status_mapping` (`state_list_widget.py` lines
42-47): the ordered table pairing each bucket list with the statuses it
holds. -/
def state_status_mapping : List (Bucket × List StateStatus) :=
  [ (.active_states, [.running]),
    (.waiting_states, [.waiting_for_worker, .waiting_for_solver]),
    (.complete_states, [.stopped]),
    (.error_states, [.destroyed]) ]

/-- The bucket a status classifies into: the first row of
`state_status_mapping` whose status list holds it (the lookup performed
by `_create_item`, lines 92-94). -/
def classify (status : StateStatus) : Option Bucket :=
  (state_status_mapping.find? (fun p => p.2.contains status)).map Prod.fst

/-- `StateListWidget._create_item` (lines 90-96): parent a fresh item
under the first matching bucket list; with no match, `raise ValueError`
(embedded as `Except.error`; the Python message interpolates the status,
the model keeps the constant prefix). -/
def create_item (state : StateDescriptor) : Except String Bucket :=
  match state_status_mapping.find? (fun p => p.2.contains state.status) with
  | some p => .ok p.1
  | none => .error "Unknown status"

/-- `StateListWidget._update_item` (lines 77-88): scan
`state_status_mapping` for the first row whose status list holds the
state's status while the item's current parent is not that row's list;
if found, reparent the item there, otherwise leave it in place (in
particular, a status matching no row leaves the item untouched). -/
def update_item (item_parent : Bucket) (status : StateStatus) : Bucket :=
  match state_status_mapping.find?
      (fun p => p.2.contains status && !(p.1 == item_parent)) with
  | some p => p.1
  | none => item_parent

/-- `StateListWidget` registry state (`state_list_widget.py` lines
49-50): the held map `states` and the per-id tree items `state_items`
(each item recorded as the bucket it is parented under).  Both dicts
start empty in `__init__`. -/
structure StateListWidget where
  states : StateMap
  state_items : List (Nat × Bucket)

/-- The widget as built by `StateListWidget.__init__`: empty `states`,
empty `state_items`. -/
def initWidget : StateListWidget :=
  { states := [], state_items := [] }

/-- The add/update loop of `notifyStatesChanged` (lines 56-63): for each
`(state_id, state)` of `new_states` in dict order, update the existing
item when `state_id in self.state_items`, otherwise create one and store
it; a `ValueError` raised by `_create_item` aborts the loop, leaving the
items mutated so far (first component) and the raised error (second). -/
def addUpdateStates : List (Nat × Bucket) → StateMap → List (Nat × Bucket) × Option String
  | items, [] => (items, none)
  | items, (state_id, state) :: rest =>
    match dlookup items state_id with
    | some parent =>
        addUpdateStates (dset items state_id (update_item parent state.status)) rest
    | none =>
        match create_item state with
        | .ok bucket => addUpdateStates (items ++ [(state_id, bucket)]) rest
        | .error e => (items, some e)

/-- `StateListWidget.notifyStatesChanged` (lines 52-75): run the
add/update loop over `new_states`, then detach and delete the item of
every id of `old_states` absent from `new_states`, then replace the held
map.  As in `MUIState.notify_states_changed`, an exception leaves the
method before `self.states = new_states`, so the held map is replaced
only on the exception-free path; the items mutated before the raise
persist (Python mutates `self.state_items` in place). -/
def notifyStatesChanged (w : StateListWidget) (new_states : StateMap) :
    StateListWidget × Option String :=
  let old_states := w.states
  match addUpdateStates w.state_items new_states with
  | (items1, some e) => ({ w with state_items := items1 }, some e)
  | (items1, none) =>
    let items2 := items1.filter
      (fun p => !(dcontains old_states p.1 && !(dcontains new_states p.1)))
    ({ states := new_states, state_items := items2 }, none)

/-- A sequence of `notifyStatesChanged` calls, each fed the next state
map (the control flow of the spec's end-to-end scenario). -/
def runUpdates : StateListWidget → List StateMap → StateListWidget
  | w, [] => w
  | w, m :: rest => runUpdates (notifyStatesChanged w m).1 rest

/-! ## The resilient client channel (`utils.py`, `create_client_stub`) -/

/-- gRPC status codes distinguished by the retry policy and the
error-handling claims. -/
inductive StatusCode where
  | unavailable
  | invalid_argument
  | not_found
deriving DecidableEq, Repr

/-- The `retryPolicy` object of the service config (`utils.py` lines
197-203); the backoff strings `"1s"`/`"10s"` are embedded as their
values in seconds. -/
structure RetryPolicy where
  maxAttempts : Nat
  initialBackoff : Nat
  maxBackoff : Nat
  backoffMultiplier : Nat
  retryableStatusCodes : List StatusCode
deriving DecidableEq, Repr

/-- One entry of `methodConfig` (`utils.py` lines 195-204): the named
services it applies to, and their retry policy. -/
structure MethodConfig where
  name : List String
  retryPolicy : RetryPolicy
deriving DecidableEq, Repr

/-- The `grpc.service_config` value (`utils.py` lines 192-207). -/
structure ServiceConfig where
  methodConfig : List MethodConfig
deriving DecidableEq, Repr

/-- The channel handed to `ManticoreUIStub`: target address and service
config (`utils.py` lines 186-210). -/
structure ClientStub where
  endpoint : String
  config : ServiceConfig
deriving DecidableEq, Repr

/-- `create_client_stub` (`utils.py` lines 185-211): an insecure channel
to `localhost:50010` whose service config carries one method-config
entry scoped to the service `muicore.ManticoreUI`, with the retry policy
of lines 197-203. -/
def create_client_stub : ClientStub :=
  { endpoint := "localhost:50010",
    config :=
      { methodConfig :=
          [ { name := ["muicore.ManticoreUI"],
              retryPolicy :=
                { maxAttempts := 5,
                  initialBackoff := 1,
                  maxBackoff := 10,
                  backoffMultiplier := 2,
                  retryableStatusCodes := [.unavailable] } } ] } }

/-- The retry policy `create_client_stub` installs. -/
def mui_retry_policy : RetryPolicy :=
  { maxAttempts := 5,
    initialBackoff := 1,
    maxBackoff := 10,
    backoffMultiplier := 2,
    retryableStatusCodes := [.unavailable] }

/-- Modelled from the spec: the gRPC runtime's per-call retry loop,
which executes the `retryPolicy` configured by `create_client_stub` but
is itself library code outside this repository.  Per spec §4.1, a call
is attempted up to `maxAttempts` times; a failure with a status in
`retryableStatusCodes` is retried while attempts remain, any other
failure (or exhaustion) surfaces immediately.  `call n` is the outcome
the network gives attempt number `n`; the result pairs the final outcome
with the number of attempts performed. -/
def retryLoop {α : Type} (retryable : List StatusCode) (call : Nat → Except StatusCode α) :
    Nat → Nat → Except StatusCode α × Nat
  | attempt, 0 => (.error .unavailable, attempt)
  | attempt, fuel + 1 =>
    match call attempt with
    | .ok a => (.ok a, attempt)
    | .error c =>
      if retryable.contains c ∧ fuel ≠ 0 then
        retryLoop retryable call (attempt + 1) fuel
      else
        (.error c, attempt)

/-- Modelled from the spec: run one logical RPC under a retry policy,
attempts numbered from 1. -/
def runWithRetry {α : Type} (p : RetryPolicy) (call : Nat → Except StatusCode α) :
    Except StatusCode α × Nat :=
  retryLoop p.retryableStatusCodes call 1 p.maxAttempts

/-- Modelled from the spec (§5): the worst-case backoff delays between
consecutive attempts under a retry policy — before retry `k+2` the
runtime waits at most `initialBackoff * backoffMultiplier ^ k`, capped
at `maxBackoff`; `maxAttempts` attempts are separated by
`maxAttempts - 1` such delays. -/
def backoffSchedule (p : RetryPolicy) : List Nat :=
  (List.range (p.maxAttempts - 1)).map
    (fun k => min (p.initialBackoff * p.backoffMultiplier ^ k) p.maxBackoff)

/-! ## Auxiliary definitions used by the statements -/

/-- Every snapshot in a map carries a status inside the known enum. -/
def mapStatusesKnown (m : StateMap) : Bool :=
  m.all (fun p => statusKnown p.2.status)

/-- An instrumented listener: returns normally and emits one trace event
tagged with its registration index. -/
def spy (i : Nat) : Listener :=
  fun old_states new_states => .ok [(i, old_states, new_states)]

/-- A listener that raises unconditionally. -/
def boomListener : Listener :=
  fun _ _ => .error "boom"

/-- A running snapshot with no instruction pointers. -/
def dRunning (i : Nat) : StateDescriptor := ⟨i, .running, none, none⟩

/-- A stopped snapshot with no instruction pointers. -/
def dStopped (i : Nat) : StateDescriptor := ⟨i, .stopped, none, none⟩

/-- A snapshot whose status lies outside the known enum. -/
def dUnknown (i : Nat) : StateDescriptor := ⟨i, .unknown "PROTOCOL_V2", none, none⟩

/-- Fixture: a held map with states 1 (running) and 2 (stopped). -/
def sampleOld : StateMap :=
  [(1, ⟨1, .running, some 100, none⟩), (2, ⟨2, .stopped, none, none⟩)]

/-- Fixture: an incoming map keeping state 1 only. -/
def sampleNew : StateMap :=
  [(1, ⟨1, .stopped, some 200, none⟩)]

/-- Fixture: a registry for the address-resolution scenarios — state 1
has only `last_pc = 0x4010`, state 2 has `pc = 0x4020` and
`last_pc = 0x4010`, state 3 has neither, state 4 is absent. -/
def sampleAddrRegistry : MUIState :=
  { states :=
      [(1, ⟨1, .running, none, some 0x4010⟩),
       (2, ⟨2, .running, some 0x4020, some 0x4010⟩),
       (3, ⟨3, .running, none, none⟩)],
    state_change_listeners := [] }

/-- Fixture: the RPC outcome stream that is unavailable on every
attempt. -/
def alwaysUnavailable : Nat → Except StatusCode Nat :=
  fun _ => .error .unavailable

/-- Fixture: the RPC outcome stream that is unavailable on attempts 1-4
and succeeds on attempt 5. -/
def failFourTimes : Nat → Except StatusCode Nat :=
  fun attempt => if attempt ≤ 4 then .error .unavailable else .ok 42

/-- Fixture: the RPC outcome stream that fails with the non-retryable
`invalid_argument` on every attempt. -/
def failInvalidArg : Nat → Except StatusCode Nat :=
  fun _ => .error .invalid_argument

/-- Fixture: the widget holding `sampleOld`, its items parented per the
snapshots' statuses. -/
def sampleWidget : StateListWidget :=
  { states := sampleOld,
    state_items := [(1, .active_states), (2, .complete_states)] }

/-- Fixture: an incoming map updating state 1 to stopped, adding state 3,
and dropping state 2. -/
def sampleNew2 : StateMap :=
  [(1, ⟨1, .stopped, some 200, none⟩), (3, ⟨3, .running, none, none⟩)]

/-- Fixture: an incoming map whose only entry carries a status outside
the enum for the already-known state 1. -/
def sampleBadNew : StateMap := [(1, dUnknown 1)]

/-- Fixture: an incoming map whose only entry carries a status outside
the enum for a previously unseen state 2. -/
def sampleBadNew2 : StateMap := [(2, dUnknown 2)]

/-- Fixture: a widget holding the single running state 1 with its item
under Active. -/
def sampleBadWidget : StateListWidget :=
  { states := [(1, dRunning 1)], state_items := [(1, .active_states)] }

/-- The widget invariant maintained across updates: an id has a tree
item exactly when it is in the held map, and each item sits under the
bucket its snapshot's status classifies into. -/
def WidgetInv (w : StateListWidget) : Prop :=
  (∀ k, dcontains w.state_items k = dcontains w.states k) ∧
  (∀ id st b, dlookup w.states id = some st → dlookup w.state_items id = some b →
    classify st.status = some b)

/-! ## Dictionary lemmas -/

theorem dlookup_dset_self {α : Type} (m : List (Nat × α)) (k : Nat) (v : α)
    (h : (dlookup m k).isSome) : dlookup (dset m k v) k = some v := by
  induction m with
  | nil => simp [dlookup] at h
  | cons hd tl ih =>
    obtain ⟨k0, v0⟩ := hd
    by_cases hk : k0 = k
    · subst hk; simp [dset, dlookup]
    · simp only [dlookup, dset, if_neg hk] at h ⊢
      exact ih h

theorem dlookup_dset_ne {α : Type} (m : List (Nat × α)) (k k' : Nat) (v : α)
    (h : k' ≠ k) : dlookup (dset m k v) k' = dlookup m k' := by
  induction m with
  | nil => rfl
  | cons hd tl ih =>
    obtain ⟨k0, v0⟩ := hd
    by_cases hk : k0 = k
    · subst hk
      simp only [dset, if_pos rfl, dlookup]
      rw [if_neg (Ne.symm h), if_neg (Ne.symm h)]
    · simp only [dset, if_neg hk, dlookup]
      by_cases hk' : k0 = k'
      · simp [hk']
      · simp only [if_neg hk']
        exact ih

theorem dlookup_append_ne {α : Type} (m : List (Nat × α)) (k k' : Nat) (v : α)
    (h : k' ≠ k) : dlookup (m ++ [(k, v)]) k' = dlookup m k' := by
  induction m with
  | nil => simp [dlookup, Ne.symm h]
  | cons hd tl ih =>
    obtain ⟨k0, v0⟩ := hd
    simp only [List.cons_append, dlookup]
    by_cases hk : k0 = k'
    · simp [hk]
    · simp only [if_neg hk]; exact ih

theorem dlookup_append_self {α : Type} (m : List (Nat × α)) (k : Nat) (v : α)
    (h : dlookup m k = none) : dlookup (m ++ [(k, v)]) k = some v := by
  induction m with
  | nil => simp [dlookup]
  | cons hd tl ih =>
    obtain ⟨k0, v0⟩ := hd
    simp only [dlookup] at h
    by_cases hk : k0 = k
    · simp [hk] at h
    · simp only [List.cons_append, dlookup, if_neg hk] at h ⊢
      exact ih h

theorem dlookup_filter_key {α : Type} (m : List (Nat × α)) (P : Nat → Bool) (k : Nat) :
    dlookup (m.filter (fun p => P p.1)) k = if P k then dlookup m k else none := by
  induction m with
  | nil => simp [dlookup]
  | cons hd tl ih =>
    obtain ⟨k0, v0⟩ := hd
    by_cases hk : k0 = k
    · subst hk
      cases hP : P k0 <;> simp [List.filter, hP, dlookup, ih]
    · cases hP : P k0 <;> simp [List.filter, hP, dlookup, if_neg hk, ih]

theorem dlookup_mem {α : Type} (m : List (Nat × α)) (k : Nat) (v : α)
    (h : dlookup m k = some v) : (k, v) ∈ m := by
  induction m with
  | nil => simp [dlookup] at h
  | cons hd tl ih =>
    obtain ⟨k0, v0⟩ := hd
    by_cases hk : k0 = k
    · subst hk
      rw [dlookup, if_pos rfl] at h
      injection h with h
      subst h; exact List.mem_cons_self _ _
    · rw [dlookup, if_neg hk] at h
      exact List.mem_cons_of_mem _ (ih h)

theorem dcontains_iff_mem_keys {α : Type} (m : List (Nat × α)) (k : Nat) :
    dcontains m k = true ↔ k ∈ m.map Prod.fst := by
  induction m with
  | nil => simp [dcontains, dlookup]
  | cons hd tl ih =>
    obtain ⟨k0, v0⟩ := hd
    by_cases hk : k0 = k
    · subst hk; simp [dcontains, dlookup]
    · simp only [dcontains, dlookup, if_neg hk, List.map_cons, List.mem_cons]
      rw [← dcontains] ; rw [ih]
      constructor
      · exact Or.inr
      · rintro (h | h)
        · exact absurd h.symm hk
        · exact h

/-! ## Classification lemmas -/

theorem statusKnown_unknown (tag : String) : statusKnown (.unknown tag) = false := rfl

theorem classify_isSome_of_known (s : StateStatus) (h : statusKnown s = true) :
    (classify s).isSome = true := by
  cases s with
  | unknown tag => rw [statusKnown_unknown] at h; exact absurd h (by simp)
  | running => decide
  | waiting_for_worker => decide
  | waiting_for_solver => decide
  | stopped => decide
  | destroyed => decide

theorem classify_none_of_not_known (s : StateStatus) (h : statusKnown s = false) :
    classify s = none := by
  cases s with
  | unknown tag => rfl
  | running => exact absurd h (by decide)
  | waiting_for_worker => exact absurd h (by decide)
  | waiting_for_solver => exact absurd h (by decide)
  | stopped => exact absurd h (by decide)
  | destroyed => exact absurd h (by decide)

theorem create_item_eq_classify (state : StateDescriptor) :
    create_item state =
      match classify state.status with
      | some b => .ok b
      | none => .error "Unknown status" := by
  unfold create_item classify
  cases state_status_mapping.find? (fun p => p.2.contains state.status) <;> rfl

/-- For a status inside the enum, `_update_item` reparents the item to
exactly the bucket the status classifies into, whatever the current
parent. -/
theorem update_item_eq_classify (s : StateStatus) (b : Bucket) (h : statusKnown s = true) :
    classify s = some (update_item b s) := by
  cases s with
  | unknown tag => rw [statusKnown_unknown] at h; exact absurd h (by simp)
  | running => cases b <;> decide
  | waiting_for_worker => cases b <;> decide
  | waiting_for_solver => cases b <;> decide
  | stopped => cases b <;> decide
  | destroyed => cases b <;> decide

/-- For a status outside the enum, `_update_item` silently leaves the
item under its current parent. -/
theorem update_item_of_not_known (s : StateStatus) (b : Bucket) (h : statusKnown s = false) :
    update_item b s = b := by
  cases s with
  | unknown tag => rfl
  | running => exact absurd h (by decide)
  | waiting_for_worker => exact absurd h (by decide)
  | waiting_for_solver => exact absurd h (by decide)
  | stopped => exact absurd h (by decide)
  | destroyed => exact absurd h (by decide)

/-! ## Lemmas about the add/update loop of `notifyStatesChanged` -/

theorem addUpdate_no_error (l : StateMap) (items : List (Nat × Bucket))
    (hkn : mapStatusesKnown l = true) : (addUpdateStates items l).2 = none := by
  induction l generalizing items with
  | nil => rfl
  | cons hd tl ih =>
    obtain ⟨id, st⟩ := hd
    have h1 : statusKnown st.status = true := by
      simp [mapStatusesKnown] at hkn; exact hkn.1
    have h2 : mapStatusesKnown tl = true := by
      simp [mapStatusesKnown] at hkn ⊢
      exact fun a b hab => hkn.2 a b hab
    rw [addUpdateStates]
    cases hdl : dlookup items id with
    | some b => exact ih _ h2
    | none =>
      rw [create_item_eq_classify]
      obtain ⟨b, hb⟩ := Option.isSome_iff_exists.mp (classify_isSome_of_known _ h1)
      rw [hb]
      exact ih _ h2

theorem addUpdate_lookup_of_not_mem (l : StateMap) (items : List (Nat × Bucket)) (id : Nat)
    (h : id ∉ l.map Prod.fst) :
    dlookup (addUpdateStates items l).1 id = dlookup items id := by
  induction l generalizing items with
  | nil => rfl
  | cons hd tl ih =>
    obtain ⟨k, st⟩ := hd
    simp only [List.map_cons, List.mem_cons] at h
    push_neg at h
    obtain ⟨hne, htl⟩ := h
    rw [addUpdateStates]
    cases hdl : dlookup items k with
    | some b =>
      rw [ih _ htl]
      exact dlookup_dset_ne _ _ _ _ hne
    | none =>
      cases hc : create_item st with
      | ok b =>
        rw [ih _ htl]
        exact dlookup_append_ne _ _ _ _ hne
      | error e => rfl

theorem addUpdate_lookup_of_mem (l : StateMap) (items : List (Nat × Bucket))
    (id : Nat) (st : StateDescriptor)
    (hnd : (l.map Prod.fst).Nodup) (hmem : (id, st) ∈ l) (hkn : mapStatusesKnown l = true) :
    dlookup (addUpdateStates items l).1 id =
      match dlookup items id with
      | some b => some (update_item b st.status)
      | none => classify st.status := by
  induction l generalizing items with
  | nil => simp at hmem
  | cons hd tl ih =>
    obtain ⟨k, st0⟩ := hd
    have h1 : statusKnown st0.status = true := by
      simp [mapStatusesKnown] at hkn; exact hkn.1
    have h2 : mapStatusesKnown tl = true := by
      simp [mapStatusesKnown] at hkn ⊢
      exact fun a b hab => hkn.2 a b hab
    simp only [List.map_cons, List.nodup_cons] at hnd
    rcases List.mem_cons.mp hmem with hhd | htl
    · injection hhd with hk hst
      subst hk; subst hst
      have hnotin : id ∉ tl.map Prod.fst := hnd.1
      rw [addUpdateStates]
      cases hdl : dlookup items id with
      | some b =>
        rw [addUpdate_lookup_of_not_mem _ _ _ hnotin]
        exact dlookup_dset_self _ _ _ (by rw [hdl]; rfl)
      | none =>
        rw [create_item_eq_classify]
        obtain ⟨b, hb⟩ := Option.isSome_iff_exists.mp (classify_isSome_of_known _ h1)
        rw [hb]
        rw [addUpdate_lookup_of_not_mem _ _ _ hnotin]
        rw [dlookup_append_self _ _ _ hdl]
    · have hne : id ≠ k := by
        intro he
        subst he
        exact hnd.1 (List.mem_map.mpr ⟨(id, st), htl, rfl⟩)
      rw [addUpdateStates]
      cases hdl : dlookup items k with
      | some b =>
        rw [ih _ hnd.2 htl h2, dlookup_dset_ne _ _ _ _ hne]
      | none =>
        rw [create_item_eq_classify]
        obtain ⟨b, hb⟩ := Option.isSome_iff_exists.mp (classify_isSome_of_known _ h1)
        rw [hb]
        rw [ih _ hnd.2 htl h2, dlookup_append_ne _ _ _ _ hne]

theorem mapStatusesKnown_mem (l : StateMap) (id : Nat) (st : StateDescriptor)
    (hkn : mapStatusesKnown l = true) (hmem : (id, st) ∈ l) :
    statusKnown st.status = true := by
  rw [mapStatusesKnown, List.all_eq_true] at hkn
  exact hkn _ hmem

theorem not_contains_lookup_none {α : Type} (m : List (Nat × α)) (k : Nat)
    (h : dcontains m k = false) : dlookup m k = none := by
  rw [dcontains] at h
  exact Option.not_isSome_iff_eq_none.mp (by rw [h]; exact Bool.false_ne_true)

/-- Outcome of one `notifyStatesChanged` call on well-formed input: no
exception, the held map is replaced, and the item of each id is the
update of its previous item for ids previously held, the freshly
classified item for new ids, and gone for ids absent from the incoming
map. -/
theorem notifyStates_characterization (w : StateListWidget) (new_states : StateMap)
    (hwf : ∀ k, dcontains w.state_items k = dcontains w.states k)
    (hnd : keysNodup new_states) (hkn : mapStatusesKnown new_states = true) :
    (notifyStatesChanged w new_states).2 = none ∧
    (notifyStatesChanged w new_states).1.states = new_states ∧
    ∀ id, dlookup (notifyStatesChanged w new_states).1.state_items id =
      match dlookup new_states id with
      | some st =>
          (match dlookup w.state_items id with
           | some b => some (update_item b st.status)
           | none => classify st.status)
      | none => none := by
  have herr : (addUpdateStates w.state_items new_states).2 = none :=
    addUpdate_no_error _ _ hkn
  rcases hA : addUpdateStates w.state_items new_states with ⟨items1, err⟩
  rw [hA] at herr
  have herr' : err = none := herr
  subst herr'
  have hres : notifyStatesChanged w new_states =
      ({ states := new_states,
         state_items := items1.filter
           (fun p => !(dcontains w.states p.1 && !(dcontains new_states p.1))) },
       none) := by
    simp only [notifyStatesChanged, hA]
  refine ⟨by rw [hres], by rw [hres], ?_⟩
  intro id
  rw [hres]
  simp only
  rw [dlookup_filter_key items1
    (fun k => !(dcontains w.states k && !dcontains new_states k)) id]
  cases hnew : dlookup new_states id with
  | some st =>
    have hc : dcontains new_states id = true := by rw [dcontains, hnew]; rfl
    have hmem := dlookup_mem _ _ _ hnew
    have hlk := addUpdate_lookup_of_mem new_states w.state_items id st hnd hmem hkn
    rw [hA] at hlk
    simp only at hlk
    simp [hc, hlk]
  | none =>
    have hc : dcontains new_states id = false := by rw [dcontains, hnew]; rfl
    have hnotin : id ∉ new_states.map Prod.fst := by
      intro hmem
      rw [← dcontains_iff_mem_keys] at hmem
      rw [hc] at hmem
      exact Bool.false_ne_true hmem
    cases hold : dcontains w.states id with
    | true => simp [hc, hold]
    | false =>
      have hlk := addUpdate_lookup_of_not_mem new_states w.state_items id hnotin
      rw [hA] at hlk
      simp only at hlk
      have hnone : dlookup w.state_items id = none :=
        not_contains_lookup_none _ _ (by rw [hwf]; exact hold)
      simp [hc, hold, hlk, hnone]

/-- The listener loop applied to instrumented listeners: one event per
listener, in registration order, each carrying the maps it was invoked
with. -/
theorem runListeners_spy (l : List Nat) (old_states new_states : StateMap) :
    runListeners (l.map spy) old_states new_states =
      .ok (l.map (fun i => (i, old_states, new_states))) := by
  induction l with
  | nil => rfl
  | cons hd tl ih => simp [runListeners, spy, ih]

/-- The add/update loop raises `ValueError` whenever the incoming map
holds an id with no existing item whose status classifies nowhere. -/
theorem addUpdate_error_of_unknown_new (l : StateMap) (items : List (Nat × Bucket))
    (id : Nat) (st : StateDescriptor)
    (hnd : (l.map Prod.fst).Nodup) (hmem : (id, st) ∈ l)
    (hbad : statusKnown st.status = false) (hnotin : dlookup items id = none) :
    (addUpdateStates items l).2 = some "Unknown status" := by
  induction l generalizing items with
  | nil => simp at hmem
  | cons hd tl ih =>
    obtain ⟨k, st0⟩ := hd
    simp only [List.map_cons, List.nodup_cons] at hnd
    rcases List.mem_cons.mp hmem with hhd | htl
    · injection hhd with hk hst
      subst hk; subst hst
      rw [addUpdateStates, hnotin, create_item_eq_classify,
        classify_none_of_not_known _ hbad]
    · have hne : id ≠ k := by
        intro he
        subst he
        exact hnd.1 (List.mem_map.mpr ⟨(id, st), htl, rfl⟩)
      cases hdl : dlookup items k with
      | some b0 =>
        rw [addUpdateStates, hdl]
        exact ih _ hnd.2 htl (by rw [dlookup_dset_ne _ _ _ _ hne]; exact hnotin)
      | none =>
        rw [addUpdateStates, hdl]
        cases hc : create_item st0 with
        | ok b0 =>
          exact ih _ hnd.2 htl (by rw [dlookup_append_ne _ _ _ _ hne]; exact hnotin)
        | error e =>
          have he : e = "Unknown status" := by
            rw [create_item_eq_classify] at hc
            cases hcl : classify st0.status with
            | some b1 => rw [hcl] at hc; exact absurd hc (by simp)
            | none =>
              rw [hcl] at hc
              injection hc with hc
              exact hc.symm
          subst he
          rfl

/-- `notifyStatesChanged` preserves the widget invariant on well-formed
known-status input. -/
theorem widgetInv_preserved (w : StateListWidget) (new_states : StateMap)
    (hinv : WidgetInv w) (hnd : keysNodup new_states)
    (hkn : mapStatusesKnown new_states = true) :
    WidgetInv (notifyStatesChanged w new_states).1 := by
  obtain ⟨herr, hstates, hitems⟩ :=
    notifyStates_characterization w new_states hinv.1 hnd hkn
  constructor
  · intro k
    rw [dcontains, dcontains, hitems k, hstates]
    cases hnew : dlookup new_states k with
    | none => rfl
    | some st =>
      have hks := mapStatusesKnown_mem _ _ _ hkn (dlookup_mem _ _ _ hnew)
      cases hdl : dlookup w.state_items k with
      | some b => rfl
      | none =>
        simp only
        rw [classify_isSome_of_known _ hks]
        rfl
  · intro id st b hs hb
    rw [hstates] at hs
    rw [hitems id, hs] at hb
    cases hdl : dlookup w.state_items id with
    | some b0 =>
      rw [hdl] at hb
      simp only at hb
      injection hb with hb
      subst hb
      exact update_item_eq_classify _ _
        (mapStatusesKnown_mem _ _ _ hkn (dlookup_mem _ _ _ hs))
    | none =>
      rw [hdl] at hb
      exact hb

/-- The widget of `__init__` satisfies the invariant. -/
theorem initWidget_inv : WidgetInv initWidget := by
  constructor
  · intro k; rfl
  · intro id st b hs hb
    simp [initWidget, dlookup] at hs

/-- A sequence of well-formed known-status updates preserves the widget
invariant, and the held map ends as the last supplied map. -/
theorem runUpdates_inv (ms : List StateMap) (w : StateListWidget)
    (hinv : WidgetInv w)
    (hkn : ∀ m ∈ ms, mapStatusesKnown m = true) (hnd : ∀ m ∈ ms, keysNodup m) :
    WidgetInv (runUpdates w ms) ∧ (runUpdates w ms).states = ms.getLastD w.states := by
  induction ms generalizing w with
  | nil => exact ⟨hinv, rfl⟩
  | cons m rest ih =>
    have hm1 : mapStatusesKnown m = true := hkn m (List.mem_cons_self _ _)
    have hm2 : keysNodup m := hnd m (List.mem_cons_self _ _)
    have hinv' := widgetInv_preserved w m hinv hm2 hm1
    have hst : (notifyStatesChanged w m).1.states = m :=
      (notifyStates_characterization w m hinv.1 hm2 hm1).2.1
    have hrest := ih (notifyStatesChanged w m).1 hinv'
      (fun x hx => hkn x (List.mem_cons_of_mem _ hx))
      (fun x hx => hnd x (List.mem_cons_of_mem _ hx))
    rw [runUpdates]
    refine ⟨hrest.1, ?_⟩
    rw [hrest.2, hst, List.getLastD_cons]

/-! ## Claim theorems -/

/-- C1: for every pair of state maps, after `notify_states_changed` is
called with the new map while holding the old one (the listener loop
returning normally), `get_state id` answers the snapshot stored in the
new map for every id present there, and `none` for every id of the old
map absent from the new one. -/
theorem registry_get_after_update (s : MUIState) (new_states : StateMap)
    (trace : List ObserverEvent) (id : Nat)
    (h : runListeners s.state_change_listeners s.states new_states = .ok trace) :
    (dcontains new_states id = true →
      get_state (notify_states_changed s new_states).1 id = dlookup new_states id) ∧
    (dcontains s.states id = true → dcontains new_states id = false →
      get_state (notify_states_changed s new_states).1 id = none) := by
  have hs : (notify_states_changed s new_states).1.states = new_states := by
    simp [notify_states_changed, h]
  constructor
  · intro hin
    simp [get_state, hs, hin]
  · intro _ hnot
    simp [get_state, hs, hnot]

/-- Witness for C1 on `sampleOld`/`sampleNew`: id 1 (kept) answers its
new snapshot, id 2 (dropped) answers `none`. -/
theorem registry_get_after_update_witness :
    get_state (notify_states_changed ⟨sampleOld, []⟩ sampleNew).1 1 = dlookup sampleNew 1 ∧
    get_state (notify_states_changed ⟨sampleOld, []⟩ sampleNew).1 2 = none :=
  ⟨(registry_get_after_update ⟨sampleOld, []⟩ sampleNew [] 1 rfl).1 rfl,
   (registry_get_after_update ⟨sampleOld, []⟩ sampleNew [] 2 rfl).2 rfl rfl⟩

/-- C2: an `notify_states_changed` call with any new map — the empty map
included, processed as an ordinary full-clear update and not as an
error — invokes each of the `n` registered observers exactly once (one
trace event per observer), in registration order `0, …, n-1`, each
invocation receiving the pair (old map, new map); every invocation
receives the pre-update map `states`, i.e. happens before the old map is
replaced, and afterwards the registry holds `new_states`. -/
theorem notify_invokes_observers_in_order (states new_states : StateMap) (n : Nat) :
    notify_states_changed ⟨states, (List.range n).map spy⟩ new_states =
      (⟨new_states, (List.range n).map spy⟩,
        .ok ((List.range n).map (fun i => (i, states, new_states)))) := by
  simp [notify_states_changed, runListeners_spy]

/-- C3: lifecycle classification is the pure function `classify` of the
status alone; it maps Running to Active, the two waiting statuses to
Waiting, Stopped to Complete and Destroyed to Errored; every bucket of
`state_status_mapping` receives at least one enum status; every enum
status lies in exactly one bucket's status set; and the bucket status
sets contain only enum statuses — so the four sets partition the enum
with no overlaps and no gaps. -/
theorem classification_partition :
    (classify .running = some .active_states ∧
     classify .waiting_for_worker = some .waiting_states ∧
     classify .waiting_for_solver = some .waiting_states ∧
     classify .stopped = some .complete_states ∧
     classify .destroyed = some .error_states) ∧
    (∀ p ∈ state_status_mapping, ∃ s ∈ statusEnum, classify s = some p.1) ∧
    (∀ s ∈ statusEnum,
      (state_status_mapping.filter (fun p => p.2.contains s)).length = 1) ∧
    (∀ p ∈ state_status_mapping, ∀ s ∈ p.2, s ∈ statusEnum) := by
  decide

/-- C4: address resolution returns the snapshot's `pc` when present,
else `last_pc` when present, else `none`; an unknown id also resolves to
`none`, and the embedded function is total (nothing is thrown). -/
theorem resolve_address_fallback (s : MUIState) (id : Nat) (st : StateDescriptor)
    (a b : Int) :
    (get_state s id = some st → st.pc = some a →
      get_state_address s id = some a) ∧
    (get_state s id = some st → st.pc = none → st.last_pc = some b →
      get_state_address s id = some b) ∧
    (get_state s id = some st → st.pc = none → st.last_pc = none →
      get_state_address s id = none) ∧
    (get_state s id = none → get_state_address s id = none) := by
  refine ⟨?_, ?_, ?_, ?_⟩
  · intro h hpc
    simp [get_state_address, h, hpc]
  · intro h hpc hl
    simp [get_state_address, h, hpc, hl]
  · intro h hpc hl
    simp [get_state_address, h, hpc, hl]
  · intro h
    simp [get_state_address, h]

/-- Witness for C4: `pc=None, last_pc=0x4010` resolves to `0x4010`;
`pc=0x4020, last_pc=0x4010` resolves to `0x4020`; neither present
resolves to `none`; an unknown id resolves to `none`. -/
theorem resolve_address_fallback_witness :
    get_state_address sampleAddrRegistry 1 = some 0x4010 ∧
    get_state_address sampleAddrRegistry 2 = some 0x4020 ∧
    get_state_address sampleAddrRegistry 3 = none ∧
    get_state_address sampleAddrRegistry 4 = none :=
  ⟨(resolve_address_fallback sampleAddrRegistry 1
      ⟨1, .running, none, some 0x4010⟩ 0 0x4010).2.1 rfl rfl rfl,
   (resolve_address_fallback sampleAddrRegistry 2
      ⟨2, .running, some 0x4020, some 0x4010⟩ 0x4020 0).1 rfl rfl,
   (resolve_address_fallback sampleAddrRegistry 3
      ⟨3, .running, none, none⟩ 0 0).2.2.1 rfl rfl rfl,
   (resolve_address_fallback sampleAddrRegistry 4
      ⟨0, .running, none, none⟩ 0 0).2.2.2 rfl⟩

/-- C5: in one `notifyStatesChanged` call on a well-formed widget, each
id of the new map with an existing item is treated as an update (its
item becomes `_update_item` of the previous one), each id without one as
an addition (a fresh item under the status's bucket), and the removed
ids are exactly the ids held before and absent from the new map — the
conjuncts hold for arbitrary snapshot contents, so removal is determined
by ids alone, never by statuses. -/
theorem diff_add_update_remove (w : StateListWidget) (new_states : StateMap)
    (id : Nat) (st : StateDescriptor) (b : Bucket)
    (hwf : ∀ k, dcontains w.state_items k = dcontains w.states k)
    (hnd : keysNodup new_states) (hkn : mapStatusesKnown new_states = true) :
    (notifyStatesChanged w new_states).2 = none ∧
    (dlookup new_states id = some st → dlookup w.state_items id = some b →
      dlookup (notifyStatesChanged w new_states).1.state_items id =
        some (update_item b st.status)) ∧
    (dlookup new_states id = some st → dlookup w.state_items id = none →
      dlookup (notifyStatesChanged w new_states).1.state_items id =
        classify st.status) ∧
    (dcontains w.states id = true → dcontains new_states id = false →
      dcontains (notifyStatesChanged w new_states).1.state_items id = false) ∧
    (dcontains new_states id = true →
      dcontains (notifyStatesChanged w new_states).1.state_items id = true) := by
  obtain ⟨herr, hstates, hitems⟩ :=
    notifyStates_characterization w new_states hwf hnd hkn
  refine ⟨herr, ?_, ?_, ?_, ?_⟩
  · intro hnew hold
    rw [hitems id, hnew, hold]
  · intro hnew hold
    rw [hitems id, hnew, hold]
  · intro _ hnot
    rw [dcontains, hitems id, not_contains_lookup_none _ _ hnot]
    rfl
  · intro hin
    rw [dcontains, hitems id]
    obtain ⟨stx, hstx⟩ := Option.isSome_iff_exists.mp hin
    rw [hstx]
    have hks := mapStatusesKnown_mem _ _ _ hkn (dlookup_mem _ _ _ hstx)
    cases hdl : dlookup w.state_items id with
    | some b0 => rfl
    | none =>
      simp only
      rw [classify_isSome_of_known _ hks]

/-- Witness for C5 on `sampleWidget`/`sampleNew2`: no error, id 1 is
updated in place, id 3 is added under its status's bucket, id 2 is
removed. -/
theorem diff_add_update_remove_witness :
    (notifyStatesChanged sampleWidget sampleNew2).2 = none ∧
    dlookup (notifyStatesChanged sampleWidget sampleNew2).1.state_items 1 =
      some (update_item .active_states .stopped) ∧
    dlookup (notifyStatesChanged sampleWidget sampleNew2).1.state_items 3 =
      classify .running ∧
    dcontains (notifyStatesChanged sampleWidget sampleNew2).1.state_items 2 = false := by
  have hwf : ∀ k, dcontains sampleWidget.state_items k = dcontains sampleWidget.states k := by
    intro k
    by_cases h1 : (1 : Nat) = k
    · simp [sampleWidget, sampleOld, dcontains, dlookup, h1]
    · by_cases h2 : (2 : Nat) = k <;>
        simp [sampleWidget, sampleOld, dcontains, dlookup, h1, h2]
  exact ⟨(diff_add_update_remove sampleWidget sampleNew2 1
            ⟨1, .stopped, some 200, none⟩ .active_states hwf (by decide) (by decide)).1,
         (diff_add_update_remove sampleWidget sampleNew2 1
            ⟨1, .stopped, some 200, none⟩ .active_states hwf (by decide) (by decide)).2.1 rfl rfl,
         (diff_add_update_remove sampleWidget sampleNew2 3
            ⟨3, .running, none, none⟩ .active_states hwf (by decide) (by decide)).2.2.1 rfl rfl,
         (diff_add_update_remove sampleWidget sampleNew2 2
            ⟨2, .stopped, none, none⟩ .active_states hwf (by decide) (by decide)).2.2.2.1 rfl rfl⟩

/-- C6: `create_client_stub` scopes its single method config to the one
service `muicore.ManticoreUI` with retry policy max 5 attempts, initial
backoff 1s, max backoff 10s, multiplier 2, retrying only on UNAVAILABLE;
under that policy a call unavailable on every attempt surfaces
`unavailable` after exactly 5 attempts, a call unavailable 4 times
succeeding on the 5th returns the success, and a non-retryable failure
on attempt 1 surfaces immediately with no 2nd attempt. -/
theorem client_retry_policy :
    create_client_stub.config.methodConfig =
      [{ name := ["muicore.ManticoreUI"], retryPolicy := mui_retry_policy }] ∧
    mui_retry_policy =
      { maxAttempts := 5, initialBackoff := 1, maxBackoff := 10,
        backoffMultiplier := 2, retryableStatusCodes := [.unavailable] } ∧
    runWithRetry mui_retry_policy alwaysUnavailable = (.error .unavailable, 5) ∧
    runWithRetry mui_retry_policy failFourTimes = (.ok 42, 5) ∧
    runWithRetry mui_retry_policy failInvalidArg = (.error .invalid_argument, 1) := by
  refine ⟨rfl, rfl, ?_, ?_, ?_⟩ <;> rfl

/-- C7 counterexample: a snapshot whose status lies outside the enum is
silently ignored by the update path — on a widget already holding an
item for state 1, an incoming map giving state 1 an unrecognized status
makes `notifyStatesChanged` return without raising, the item left
untouched in its old bucket. -/
theorem unknown_status_not_always_fatal :
    statusKnown (dUnknown 1).status = false ∧
    (notifyStatesChanged sampleBadWidget sampleBadNew).2 = none ∧
    dlookup (notifyStatesChanged sampleBadWidget sampleBadNew).1.state_items 1 =
      some .active_states := by
  decide

/-- C7 amended: an out-of-enum status is fatal only on the creation
path — `_create_item` raises `ValueError` for it, and so does
`notifyStatesChanged` when such a snapshot's id has no existing item
(leaving the held map unreplaced); but `_update_item` silently leaves an
existing item in its current bucket. -/
theorem unknown_status_fatal_only_on_create (w : StateListWidget)
    (new_states : StateMap) (id : Nat) (st : StateDescriptor) (b : Bucket)
    (s : StateStatus) :
    (statusKnown st.status = false → create_item st = .error "Unknown status") ∧
    (statusKnown s = false → update_item b s = b) ∧
    (keysNodup new_states → dlookup new_states id = some st →
      statusKnown st.status = false → dlookup w.state_items id = none →
      (notifyStatesChanged w new_states).2 = some "Unknown status" ∧
      (notifyStatesChanged w new_states).1.states = w.states) := by
  refine ⟨?_, ?_, ?_⟩
  · intro hbad
    rw [create_item_eq_classify, classify_none_of_not_known _ hbad]
  · intro hbad
    exact update_item_of_not_known _ _ hbad
  · intro hnd hnew hbad hnotin
    have herr : (addUpdateStates w.state_items new_states).2 = some "Unknown status" :=
      addUpdate_error_of_unknown_new new_states w.state_items id st hnd
        (dlookup_mem _ _ _ hnew) hbad hnotin
    rcases hA : addUpdateStates w.state_items new_states with ⟨items1, err⟩
    rw [hA] at herr
    have herr' : err = some "Unknown status" := herr
    subst herr'
    constructor
    · simp [notifyStatesChanged, hA]
    · simp [notifyStatesChanged, hA]

/-- Witness for the amended C7: creating for the unknown-status snapshot
of state 2 raises, updating leaves the bucket in place, and the widget
update for a fresh unknown-status id fails without replacing the held
map. -/
theorem unknown_status_fatal_only_on_create_witness :
    (create_item (dUnknown 2) = .error "Unknown status") ∧
    (update_item .active_states (dUnknown 2).status = .active_states) ∧
    ((notifyStatesChanged sampleBadWidget sampleBadNew2).2 = some "Unknown status" ∧
     (notifyStatesChanged sampleBadWidget sampleBadNew2).1.states = sampleBadWidget.states) :=
  ⟨(unknown_status_fatal_only_on_create sampleBadWidget sampleBadNew2 2
      (dUnknown 2) .active_states (dUnknown 2).status).1 rfl,
   (unknown_status_fatal_only_on_create sampleBadWidget sampleBadNew2 2
      (dUnknown 2) .active_states (dUnknown 2).status).2.1 rfl,
   (unknown_status_fatal_only_on_create sampleBadWidget sampleBadNew2 2
      (dUnknown 2) .active_states (dUnknown 2).status).2.2 (by decide) rfl rfl rfl⟩

/-- C8 counterexample: the worst-case total backoff before surfacing
`Unavailable` under the configured policy is not the claimed
`1+2+4+8+8 ≈ 23` seconds; with 5 attempts only 4 backoff intervals
occur. -/
theorem backoff_total_not_23 :
    (backoffSchedule mui_retry_policy).sum ≠ 23 ∧
    backoffSchedule mui_retry_policy ≠ [1, 2, 4, 8, 8] := by
  decide

/-- C8 amended: the worst-case backoff schedule under the configured
policy is `1+2+4+8`, 15 seconds total, across the 4 intervals separating
the 5 attempts. -/
theorem backoff_total_15 :
    backoffSchedule mui_retry_policy = [1, 2, 4, 8] ∧
    (backoffSchedule mui_retry_policy).sum = 15 := by
  decide

/-- C9: the registry update is atomic with respect to observer failure —
when a listener raises during `notify_states_changed`, the raised error
propagates, the registry object is left exactly as it was (the held map
is not replaced), and `get_state` keeps answering from the old map. -/
theorem registry_unchanged_on_observer_error (s : MUIState) (new_states : StateMap)
    (e : String) (id : Nat)
    (h : runListeners s.state_change_listeners s.states new_states = .error e) :
    (notify_states_changed s new_states).2 = .error e ∧
    (notify_states_changed s new_states).1 = s ∧
    get_state (notify_states_changed s new_states).1 id = get_state s id := by
  have hres : notify_states_changed s new_states = (s, .error e) := by
    simp [notify_states_changed, h]
  rw [hres]
  exact ⟨rfl, rfl, rfl⟩

/-- Witness for C9: a raising listener aborts the update of `sampleOld`
and the registry still holds the old map. -/
theorem registry_unchanged_on_observer_error_witness :
    (notify_states_changed ⟨sampleOld, [boomListener]⟩ sampleNew).2 = .error "boom" ∧
    (notify_states_changed ⟨sampleOld, [boomListener]⟩ sampleNew).1 =
      ⟨sampleOld, [boomListener]⟩ ∧
    get_state (notify_states_changed ⟨sampleOld, [boomListener]⟩ sampleNew).1 1 =
      get_state ⟨sampleOld, [boomListener]⟩ 1 :=
  registry_unchanged_on_observer_error ⟨sampleOld, [boomListener]⟩ sampleNew "boom" 1 rfl

/-- C10 counterexample: after the two updates `{1: running}` then
`{1: stopped}`, state 1's item sits under Complete — the bucket of its
current status — not under Active, the bucket it was created under, so
items are not parented by creation-time status. -/
theorem item_bucket_not_creation_time :
    dlookup (runUpdates initWidget [[(1, dRunning 1)]]).state_items 1 =
      some .active_states ∧
    dlookup (runUpdates initWidget [[(1, dRunning 1)], [(1, dStopped 1)]]).state_items 1 =
      some .complete_states ∧
    Bucket.complete_states ≠ Bucket.active_states := by
  decide

/-- C10 amended: for every sequence of updates whose snapshots all carry
enum statuses, after each call the ids owning a tree item are exactly
the keys of the most recently supplied map, and each id's item is a
child of the bucket its snapshot's current status classifies into
(items are reparented when a status changes). -/
theorem widget_tracks_latest_map (ms : List StateMap) (id : Nat)
    (st : StateDescriptor) (b : Bucket)
    (hkn : ∀ m ∈ ms, mapStatusesKnown m = true) (hnd : ∀ m ∈ ms, keysNodup m) :
    (dcontains (runUpdates initWidget ms).state_items id =
      dcontains (ms.getLastD []) id) ∧
    (dlookup (ms.getLastD []) id = some st →
      dlookup (runUpdates initWidget ms).state_items id = some b →
      classify st.status = some b) := by
  obtain ⟨hinv, hstates⟩ := runUpdates_inv ms initWidget initWidget_inv hkn hnd
  have hinit : initWidget.states = ([] : StateMap) := rfl
  rw [hinit] at hstates
  constructor
  · rw [hinv.1 id, hstates]
  · intro hs hb
    exact hinv.2 id st b (by rw [hstates]; exact hs) hb

/-- Witness for the amended C10 on the run/stop sequence for state 1. -/
theorem widget_tracks_latest_map_witness :
    (dcontains (runUpdates initWidget [[(1, dRunning 1)], [(1, dStopped 1)]]).state_items 1 =
      dcontains ([[(1, dRunning 1)], [(1, dStopped 1)]].getLastD []) 1) ∧
    (dlookup ([[(1, dRunning 1)], [(1, dStopped 1)]].getLastD []) 1 = some (dStopped 1) →
      dlookup (runUpdates initWidget [[(1, dRunning 1)], [(1, dStopped 1)]]).state_items 1 =
        some .complete_states →
      classify (dStopped 1).status = some .complete_states) :=
  widget_tracks_latest_map [[(1, dRunning 1)], [(1, dStopped 1)]] 1 (dStopped 1)
    .complete_states (by decide) (by decide)

end MUI
